import Mathlib

/-!
Verification of the simulation core of Jormungandr-Journey (src/game.rs).

The embedding below translates the data model and operations of game.rs
into Lean. Machine integers (isize) are modelled as Int: the program only
adds unit deltas and multiplies dimensions that fit comfortably in 64 bits,
so overflow is not reachable on the inputs considered. Rust % and / on
isize truncate toward zero; every division and remainder below is applied
to a nonnegative dividend and a positive divisor, where truncating and
Euclidean division coincide, so the Int operators are a faithful model.
Fallible operations return Option, and panics that are relevant to the
claims are modelled as explicit outcome constructors.
-/

namespace Jormungandr

/-- game.rs line 12: pub type Vec3 = (isize, isize, isize). -/
abbrev Vec3 := Int × Int × Int

/-- game.rs lines 14-18: each axis of coord must lie in the range 0..dim. -/
def contains (coord dimensions : Vec3) : Bool :=
  let (x, y, z) := coord
  let (mx, my, mz) := dimensions
  decide (0 ≤ x ∧ x < mx ∧ 0 ≤ y ∧ y < my ∧ 0 ≤ z ∧ z < mz)

/-- game.rs lines 19-24: isometric projection to a 2D screen position. -/
def coord_to_screen (coord : Vec3) : Int × Int :=
  let (x, y, z) := coord
  let screen_x := (x - y) * 2
  let screen_y := (x + y) - z
  (screen_x, screen_y)

/-- game.rs lines 30-36: the cell enumeration. -/
inductive Cell
  | Void
  | Empty
  | Block
  | Food
deriving DecidableEq, Repr

/-- game.rs lines 49-54: a dense 3D voxel store over a flat backing vector. -/
structure Grid where
  cells : List Cell
  dimensions : Vec3
deriving DecidableEq, Repr

/-- game.rs lines 92-95: flat index of a coordinate; does not check bounds. -/
def Grid.coord_to_index (g : Grid) (c : Vec3) : Int :=
  let (x, y, z) := c
  let (mx, my, _) := g.dimensions
  z * my * mx + y * mx + x

/-- game.rs lines 96-103: coordinate of a flat index. -/
def Grid.index_to_coord (g : Grid) (idx : Nat) : Vec3 :=
  let idx : Int := idx
  let (mx, my, _) := g.dimensions
  let x := idx % mx
  let y := (idx / mx) % my
  let z := idx / (mx * my)
  (x, y, z)

/-- game.rs lines 68-77: lookup; none when out of bounds or when the stored
cell is Void. The Rust code indexes the backing vector directly, which
panics when the vector is shorter than the dimensions imply; that
out-of-range read cannot happen for a grid whose vector has the declared
mx*my*mz cells, and is modelled here as an absent cell. -/
def Grid.get (g : Grid) (c : Vec3) : Option Cell :=
  if contains c g.dimensions then
    match g.cells[(g.coord_to_index c).toNat]? with
    | some cell => if cell ≠ Cell.Void then some cell else none
    | none => none
  else none

/-- game.rs lines 79-87: in-place write, rejected out of bounds.
Ok maps to some (with the updated grid), Err to none. -/
def Grid.set (g : Grid) (c : Vec3) (cell : Cell) : Option Grid :=
  if contains c g.dimensions then
    some { g with cells := g.cells.set (g.coord_to_index c).toNat cell }
  else none

/-- game.rs lines 117-126: the direction enumeration. -/
inductive Direction
  | North
  | South
  | West
  | East
  | Up
  | Down
  | None
deriving DecidableEq, Repr

/-- game.rs lines 141-157: Vec3 + Direction adds the unit delta of the
direction. -/
def Vec3.addDir (v : Vec3) (dir : Direction) : Vec3 :=
  let (x, y, z) := v
  let (dx, dy, dz) : Vec3 :=
    match dir with
    | Direction.North => (0, -1, 0)
    | Direction.South => (0, 1, 0)
    | Direction.West => (-1, 0, 0)
    | Direction.East => (1, 0, 0)
    | Direction.Up => (0, 0, 1)
    | Direction.Down => (0, 0, -1)
    | Direction.None => (0, 0, 0)
  (x + dx, y + dy, z + dz)

/-- game.rs lines 159-165: the snake, body front = head. The VecDeque is
modelled as a list whose first element is the front. -/
structure Snake where
  direction : Direction
  body : List Vec3
deriving DecidableEq, Repr

/-- game.rs lines 168-175: a single-segment snake with no heading. -/
def Snake.new (pos : Vec3) : Snake :=
  { direction := Direction.None, body := [pos] }

/-- game.rs lines 177-181: front of the body. The Rust code panics on an
empty body; the model returns the junk value (0,0,0) there, which is
unreachable for snakes satisfying the non-empty body invariant. -/
def Snake.head (s : Snake) : Vec3 :=
  s.body.headI

/-- game.rs lines 183-188: push the target at the front; unless growing,
pop the back. -/
def Snake.move_to (s : Snake) (target : Vec3) (growing : Bool) : Snake :=
  let pushed := target :: s.body
  { s with body := if growing then pushed else pushed.dropLast }

/-- game.rs lines 190-193: HashSet scan of the body, true on the first
coordinate already seen. -/
def dupScan : List Vec3 → List Vec3 → Bool
  | [], _ => false
  | c :: rest, seen => if seen.contains c then true else dupScan rest (c :: seen)

/-- game.rs lines 190-193: some coordinate occurs more than once. -/
def Snake.is_superlapping (s : Snake) : Bool :=
  dupScan s.body []

/-- game.rs lines 285-294: the three fatal tick errors, each carrying the
head and attempted_move fields of the Rust enum variant. -/
inductive GameError
  | SnakeCollision (head attempted_move : Vec3)
  | SnakeCannibalism (head attempted_move : Vec3)
  | SnakeFell (head attempted_move : Vec3)
deriving DecidableEq, Repr

/-- game.rs lines 205-209: the authoritative simulation state. -/
structure GameState where
  grid : Grid
  snake : Snake
deriving DecidableEq, Repr

/-- game.rs lines 212-217. -/
def GameState.new (starting_pos : Vec3) (level : Grid) : GameState :=
  { grid := level, snake := Snake.new starting_pos }

/-- Result of one tick of GameState::update. The Rust signature is
(&mut self) -> Result<()>; here the (possibly mutated) state is returned
with the outcome, since on a Cannibalism error the mutation has already
been committed. oob models the error propagation of grid.set inside the
Food branch (game.rs line 256), and trap models the unreachable! arm
(game.rs line 258). -/
inductive TickOutcome
  | ok (state : GameState)
  | err (e : GameError) (state : GameState)
  | oob (state : GameState)
  | trap
deriving DecidableEq, Repr

/-- game.rs lines 220-224: the effective heading of the tick. -/
def GameState.effDir (s : GameState) (dir_held : Direction) : Direction :=
  if dir_held = Direction.None then s.snake.direction else dir_held

/-- game.rs line 225: the state after the heading has been written back. -/
def GameState.withDir (s : GameState) (dir_held : Direction) : GameState :=
  { s with snake := { s.snake with direction := s.effDir dir_held } }

/-- game.rs line 227: the intended destination of the tick. -/
def GameState.nextHead (s : GameState) (dir_held : Direction) : Vec3 :=
  Vec3.addDir s.snake.head (s.effDir dir_held)

/-- game.rs lines 267-274: the post-move self-intersection check. The state
passed in already holds the moved snake, so its head is the new head. -/
def checkCannibalism (s : GameState) (next_head : Vec3) : TickOutcome :=
  if s.snake.is_superlapping then
    TickOutcome.err (GameError.SnakeCannibalism s.snake.head next_head) s
  else
    TickOutcome.ok s

/-- game.rs lines 250-259: branch on the resolved cell type. In the Food
arm the Rust code first moves the snake and then writes the grid, so on a
set failure the snake has already moved (dead code, see claim C10). -/
def applyMove (s : GameState) (next_head : Vec3) (cell : Cell) : TickOutcome :=
  match cell with
  | Cell.Empty =>
      checkCannibalism { s with snake := s.snake.move_to next_head false } next_head
  | Cell.Food =>
      match s.grid.set next_head Cell.Empty with
      | some g2 =>
          checkCannibalism { grid := g2, snake := s.snake.move_to next_head true } next_head
      | none => TickOutcome.oob { s with snake := s.snake.move_to next_head true }
  | _ => TickOutcome.trap

/-- game.rs lines 219-275: one tick. The heading is written back first;
the destination lookup rejects absent or Block cells with Collision; the
cell below the destination resolves gravity (Block below keeps the
destination cell type, a present non-Block cell below substitutes its own
type, an absent cell below is Fell); then the resolved type is applied. -/
def GameState.update (s : GameState) (dir_held : Direction) : TickOutcome :=
  match (s.withDir dir_held).grid.get (s.nextHead dir_held) with
  | some cell =>
      if cell = Cell.Block then
        TickOutcome.err
          (GameError.SnakeCollision (s.withDir dir_held).snake.head (s.nextHead dir_held))
          (s.withDir dir_held)
      else
        match (s.withDir dir_held).grid.get (Vec3.addDir (s.nextHead dir_held) Direction.Down) with
        | some low =>
            applyMove (s.withDir dir_held) (s.nextHead dir_held)
              (if low = Cell.Block then cell else low)
        | none =>
            TickOutcome.err
              (GameError.SnakeFell (s.withDir dir_held).snake.head (s.nextHead dir_held))
              (s.withDir dir_held)
  | none =>
      TickOutcome.err
        (GameError.SnakeCollision (s.withDir dir_held).snake.head (s.nextHead dir_held))
        (s.withDir dir_held)

/-! Supporting lemmas about the grid primitives. -/

lemma contains_iff (x y z mx my mz : Int) :
    contains (x, y, z) (mx, my, mz) = true ↔
      0 ≤ x ∧ x < mx ∧ 0 ≤ y ∧ y < my ∧ 0 ≤ z ∧ z < mz := by
  simp [contains]

lemma Grid.get_eq_some_iff (g : Grid) (c : Vec3) (cell : Cell) :
    g.get c = some cell ↔
      contains c g.dimensions = true ∧
        g.cells[(g.coord_to_index c).toNat]? = some cell ∧ cell ≠ Cell.Void := by
  unfold Grid.get
  constructor
  · intro h
    split at h
    · rename_i hcont
      split at h
      · rename_i cell0 hidx
        split at h
        · rename_i hv
          exact ⟨hcont, by simpa [← Option.some_inj.mp h] using hidx, by
            rw [← Option.some_inj.mp h]; exact hv⟩
        · exact absurd h (by simp)
      · exact absurd h (by simp)
    · exact absurd h (by simp)
  · rintro ⟨hcont, hidx, hv⟩
    rw [if_pos hcont, hidx]
    show (if cell ≠ Cell.Void then some cell else none) = some cell
    rw [if_pos hv]

lemma Grid.get_ne_void (g : Grid) (c : Vec3) : g.get c ≠ some Cell.Void := by
  intro h
  exact ((g.get_eq_some_iff c Cell.Void).mp h).2.2 rfl

lemma Grid.contains_of_get_eq_some {g : Grid} {c : Vec3} {cell : Cell}
    (h : g.get c = some cell) : contains c g.dimensions = true :=
  ((g.get_eq_some_iff c cell).mp h).1

lemma Grid.set_eq_some_of_contains (g : Grid) (c : Vec3) (cell : Cell)
    (h : contains c g.dimensions = true) :
    g.set c cell = some { g with cells := g.cells.set (g.coord_to_index c).toNat cell } := by
  unfold Grid.set
  rw [if_pos h]

lemma Grid.set_eq_none_iff (g : Grid) (c : Vec3) (cell : Cell) :
    g.set c cell = none ↔ contains c g.dimensions = false := by
  unfold Grid.set
  constructor
  · intro h
    split at h
    · exact absurd h (by simp)
    · rename_i hcont
      simpa using hcont
  · intro h
    rw [if_neg (by simp [h])]

/-- After a successful set at a coordinate whose previous lookup succeeded,
get at that coordinate returns the written cell (when it is not Void). -/
lemma Grid.get_set_self {g g2 : Grid} {c : Vec3} {old cell : Cell}
    (hget : g.get c = some old) (hset : g.set c cell = some g2)
    (hv : cell ≠ Cell.Void) : g2.get c = some cell := by
  obtain ⟨hcont, hidx, -⟩ := (g.get_eq_some_iff c old).mp hget
  have hlt : (g.coord_to_index c).toNat < g.cells.length := by
    have := List.getElem?_eq_some_iff.mp hidx
    exact this.1
  have hg2 : g2 = { g with cells := g.cells.set (g.coord_to_index c).toNat cell } := by
    rw [Grid.set_eq_some_of_contains g c cell hcont] at hset
    exact (Option.some_inj.mp hset).symm
  subst hg2
  rw [Grid.get_eq_some_iff]
  refine ⟨hcont, ?_, hv⟩
  show (g.cells.set (g.coord_to_index c).toNat cell)[(g.coord_to_index c).toNat]? = some cell
  exact List.getElem?_set_self hlt

/-! Supporting lemmas about the snake primitives. -/

lemma Snake.move_to_body_grow (sn : Snake) (t : Vec3) :
    (sn.move_to t true).body = t :: sn.body := rfl

lemma Snake.move_to_body_slide (sn : Snake) (t : Vec3) (hne : sn.body ≠ []) :
    (sn.move_to t false).body = t :: sn.body.dropLast := by
  unfold Snake.move_to
  simp [List.dropLast_cons_of_ne_nil hne]

lemma Snake.move_to_head (sn : Snake) (t : Vec3) (b : Bool) (hne : sn.body ≠ []) :
    (sn.move_to t b).head = t := by
  cases b
  · rw [Snake.head, Snake.move_to_body_slide sn t hne]
    rfl
  · rw [Snake.head, Snake.move_to_body_grow]
    rfl

/-! Supporting lemmas about the tick state machine. -/

lemma checkCannibalism_cases (s : GameState) (nh : Vec3) :
    checkCannibalism s nh = TickOutcome.ok s ∨
      checkCannibalism s nh =
        TickOutcome.err (GameError.SnakeCannibalism s.snake.head nh) s := by
  unfold checkCannibalism
  split
  · right; rfl
  · left; rfl

lemma checkCannibalism_ne_trap (s : GameState) (nh : Vec3) :
    checkCannibalism s nh ≠ TickOutcome.trap := by
  rcases checkCannibalism_cases s nh with h | h <;> rw [h] <;> simp

lemma checkCannibalism_ne_oob (s st : GameState) (nh : Vec3) :
    checkCannibalism s nh ≠ TickOutcome.oob st := by
  unfold checkCannibalism
  split <;> simp

lemma checkCannibalism_ok_inv {s st : GameState} {nh : Vec3}
    (h : checkCannibalism s nh = TickOutcome.ok st) : st = s := by
  unfold checkCannibalism at h
  split at h
  · exact absurd h (by simp)
  · exact (TickOutcome.ok.inj h).symm

lemma checkCannibalism_err_inv {s st : GameState} {nh : Vec3} {e : GameError}
    (h : checkCannibalism s nh = TickOutcome.err e st) :
    e = GameError.SnakeCannibalism s.snake.head nh ∧ st = s := by
  unfold checkCannibalism at h
  split at h
  · exact ⟨((TickOutcome.err.inj h).1).symm, ((TickOutcome.err.inj h).2).symm⟩
  · exact absurd h (by simp)

lemma applyMove_empty (s : GameState) (nh : Vec3) :
    applyMove s nh Cell.Empty =
      checkCannibalism { s with snake := s.snake.move_to nh false } nh := rfl

lemma applyMove_food {s : GameState} {nh : Vec3} {g2 : Grid}
    (hset : s.grid.set nh Cell.Empty = some g2) :
    applyMove s nh Cell.Food =
      checkCannibalism { grid := g2, snake := s.snake.move_to nh true } nh := by
  unfold applyMove
  rw [hset]

lemma applyMove_ne_trap {s : GameState} {nh : Vec3} {cell : Cell}
    (h : cell = Cell.Empty ∨ cell = Cell.Food) : applyMove s nh cell ≠ TickOutcome.trap := by
  rcases h with h | h <;> subst h
  · rw [applyMove_empty]
    exact checkCannibalism_ne_trap _ _
  · unfold applyMove
    cases hset : s.grid.set nh Cell.Empty with
    | some g2 => exact checkCannibalism_ne_trap _ _
    | none => simp

lemma applyMove_err_inv {s : GameState} {nh : Vec3} {cell : Cell} {e : GameError}
    {st : GameState} (h : applyMove s nh cell = TickOutcome.err e st) :
    e = GameError.SnakeCannibalism st.snake.head nh ∧
      ∃ b : Bool, st.snake = s.snake.move_to nh b := by
  unfold applyMove at h
  match cell, h with
  | Cell.Empty, h =>
      obtain ⟨he, hst⟩ := checkCannibalism_err_inv h
      subst hst
      exact ⟨he, false, rfl⟩
  | Cell.Food, h =>
      cases hset : s.grid.set nh Cell.Empty with
      | some g2 =>
          rw [hset] at h
          obtain ⟨he, hst⟩ := checkCannibalism_err_inv h
          subst hst
          exact ⟨he, true, rfl⟩
      | none =>
          rw [hset] at h
          exact absurd h (by simp)

lemma applyMove_oob_inv {s : GameState} {nh : Vec3} {cell : Cell} {st : GameState}
    (h : applyMove s nh cell = TickOutcome.oob st) :
    s.grid.set nh Cell.Empty = none := by
  unfold applyMove at h
  match cell, h with
  | Cell.Empty, h => exact absurd h (checkCannibalism_ne_oob _ _ _)
  | Cell.Food, h =>
      cases hset : s.grid.set nh Cell.Empty with
      | some g2 =>
          rw [hset] at h
          exact absurd h (checkCannibalism_ne_oob _ _ _)
      | none => rfl
  | Cell.Void, h => exact absurd h (by simp)
  | Cell.Block, h => exact absurd h (by simp)

lemma applyMove_ok_inv {s : GameState} {nh : Vec3} {cell : Cell} {st : GameState}
    (h : applyMove s nh cell = TickOutcome.ok st) :
    ∃ b : Bool, st.snake = s.snake.move_to nh b := by
  unfold applyMove at h
  match cell, h with
  | Cell.Empty, h =>
      have hst := checkCannibalism_ok_inv h
      subst hst
      exact ⟨false, rfl⟩
  | Cell.Food, h =>
      cases hset : s.grid.set nh Cell.Empty with
      | some g2 =>
          rw [hset] at h
          have hst := checkCannibalism_ok_inv h
          subst hst
          exact ⟨true, rfl⟩
      | none =>
          rw [hset] at h
          exact absurd h (by simp)
  | Cell.Void, h => exact absurd h (by simp)
  | Cell.Block, h => exact absurd h (by simp)

/-! Unfolding lemmas for one tick, one per control-flow branch of update. -/

lemma withDir_grid (s : GameState) (d : Direction) : (s.withDir d).grid = s.grid := rfl

lemma withDir_head (s : GameState) (d : Direction) :
    (s.withDir d).snake.head = s.snake.head := rfl

lemma withDir_body (s : GameState) (d : Direction) :
    (s.withDir d).snake.body = s.snake.body := rfl

lemma update_eq_collision_of_none {s : GameState} {d : Direction}
    (hc : s.grid.get (s.nextHead d) = none) :
    s.update d =
      TickOutcome.err (GameError.SnakeCollision s.snake.head (s.nextHead d)) (s.withDir d) := by
  unfold GameState.update
  rw [withDir_grid, hc]
  rfl

lemma update_eq_collision_of_block {s : GameState} {d : Direction}
    (hc : s.grid.get (s.nextHead d) = some Cell.Block) :
    s.update d =
      TickOutcome.err (GameError.SnakeCollision s.snake.head (s.nextHead d)) (s.withDir d) := by
  unfold GameState.update
  rw [withDir_grid, hc]
  rfl

lemma update_eq_fell {s : GameState} {d : Direction} {cell : Cell}
    (hc : s.grid.get (s.nextHead d) = some cell) (hB : cell ≠ Cell.Block)
    (hl : s.grid.get (Vec3.addDir (s.nextHead d) Direction.Down) = none) :
    s.update d =
      TickOutcome.err (GameError.SnakeFell s.snake.head (s.nextHead d)) (s.withDir d) := by
  unfold GameState.update
  rw [withDir_grid, hc]
  show (if cell = Cell.Block then _ else _) = _
  rw [if_neg hB, hl]
  rfl

lemma update_eq_applyMove {s : GameState} {d : Direction} {cell low : Cell}
    (hc : s.grid.get (s.nextHead d) = some cell) (hB : cell ≠ Cell.Block)
    (hl : s.grid.get (Vec3.addDir (s.nextHead d) Direction.Down) = some low) :
    s.update d =
      applyMove (s.withDir d) (s.nextHead d) (if low = Cell.Block then cell else low) := by
  unfold GameState.update
  rw [withDir_grid, hc]
  show (if cell = Cell.Block then _ else _) = _
  rw [if_neg hB, hl]

/-- Inversion: a Collision error is returned exactly from the two branches
where the destination lookup is absent or Block, before any mutation. -/
lemma update_collision_inv {s : GameState} {d : Direction} {h a : Vec3} {st : GameState}
    (heq : s.update d = TickOutcome.err (GameError.SnakeCollision h a) st) :
    (s.grid.get (s.nextHead d) = none ∨ s.grid.get (s.nextHead d) = some Cell.Block) ∧
      h = s.snake.head ∧ a = s.nextHead d ∧ st = s.withDir d := by
  cases hc : s.grid.get (s.nextHead d) with
  | none =>
      rw [update_eq_collision_of_none hc] at heq
      obtain ⟨he, hst⟩ := TickOutcome.err.inj heq
      obtain ⟨hh, ha⟩ := GameError.SnakeCollision.inj he
      exact ⟨Or.inl rfl, hh.symm, ha.symm, hst.symm⟩
  | some cell =>
      by_cases hB : cell = Cell.Block
      · subst hB
        rw [update_eq_collision_of_block hc] at heq
        obtain ⟨he, hst⟩ := TickOutcome.err.inj heq
        obtain ⟨hh, ha⟩ := GameError.SnakeCollision.inj he
        exact ⟨Or.inr rfl, hh.symm, ha.symm, hst.symm⟩
      · cases hl : s.grid.get (Vec3.addDir (s.nextHead d) Direction.Down) with
        | none =>
            rw [update_eq_fell hc hB hl] at heq
            exact absurd heq (by simp)
        | some low =>
            rw [update_eq_applyMove hc hB hl] at heq
            obtain ⟨he, -⟩ := applyMove_err_inv heq
            exact absurd he (by simp)

/-- Inversion: a Fell error is returned exactly from the branch where the
destination is present and passable but the cell below it is absent. -/
lemma update_fell_inv {s : GameState} {d : Direction} {h a : Vec3} {st : GameState}
    (heq : s.update d = TickOutcome.err (GameError.SnakeFell h a) st) :
    s.grid.get (Vec3.addDir (s.nextHead d) Direction.Down) = none ∧
      (∃ cell, s.grid.get (s.nextHead d) = some cell ∧ cell ≠ Cell.Block) ∧
      h = s.snake.head ∧ a = s.nextHead d ∧ st = s.withDir d := by
  cases hc : s.grid.get (s.nextHead d) with
  | none =>
      rw [update_eq_collision_of_none hc] at heq
      exact absurd heq (by simp)
  | some cell =>
      by_cases hB : cell = Cell.Block
      · subst hB
        rw [update_eq_collision_of_block hc] at heq
        exact absurd heq (by simp)
      · cases hl : s.grid.get (Vec3.addDir (s.nextHead d) Direction.Down) with
        | none =>
            rw [update_eq_fell hc hB hl] at heq
            obtain ⟨he, hst⟩ := TickOutcome.err.inj heq
            obtain ⟨hh, ha⟩ := GameError.SnakeFell.inj he
            exact ⟨rfl, ⟨cell, rfl, hB⟩, hh.symm, ha.symm, hst.symm⟩
        | some low =>
            rw [update_eq_applyMove hc hB hl] at heq
            obtain ⟨he, -⟩ := applyMove_err_inv heq
            exact absurd he (by simp)

/-- Inversion: a Cannibalism error is produced after the snake has moved,
and carries as head the already-moved head of the returned state. -/
lemma update_cannibalism_inv {s : GameState} {d : Direction} {h a : Vec3} {st : GameState}
    (heq : s.update d = TickOutcome.err (GameError.SnakeCannibalism h a) st) :
    h = st.snake.head ∧ a = s.nextHead d ∧
      ∃ b : Bool, st.snake = (s.withDir d).snake.move_to (s.nextHead d) b := by
  cases hc : s.grid.get (s.nextHead d) with
  | none =>
      rw [update_eq_collision_of_none hc] at heq
      exact absurd heq (by simp)
  | some cell =>
      by_cases hB : cell = Cell.Block
      · subst hB
        rw [update_eq_collision_of_block hc] at heq
        exact absurd heq (by simp)
      · cases hl : s.grid.get (Vec3.addDir (s.nextHead d) Direction.Down) with
        | none =>
            rw [update_eq_fell hc hB hl] at heq
            exact absurd heq (by simp)
        | some low =>
            rw [update_eq_applyMove hc hB hl] at heq
            obtain ⟨he, hb⟩ := applyMove_err_inv heq
            obtain ⟨hh, ha⟩ := GameError.SnakeCannibalism.inj he
            exact ⟨hh, ha, hb⟩

/-- Engine lemma: when the tick has reduced to applying a resolved cell
type (Empty or Food) at an in-bounds destination, the mutation goes
through: the new head is written at next_head, the body grows exactly on
Food, the grid loses the Food marker at next_head, and the tick ends in
ok or in the committed Cannibalism error. -/
lemma update_resolved {s : GameState} {d : Direction} {res : Cell}
    (hne : s.snake.body ≠ [])
    (hup : s.update d = applyMove (s.withDir d) (s.nextHead d) res)
    (hcont : contains (s.nextHead d) s.grid.dimensions = true)
    (hres : res = Cell.Empty ∨ res = Cell.Food) :
    ∃ st : GameState,
      (s.update d = TickOutcome.ok st ∨
        s.update d = TickOutcome.err
          (GameError.SnakeCannibalism (s.nextHead d) (s.nextHead d)) st) ∧
      st.snake.head = s.nextHead d ∧
      st.snake.body =
        s.nextHead d :: (if res = Cell.Food then s.snake.body else s.snake.body.dropLast) ∧
      (res = Cell.Food → s.grid.set (s.nextHead d) Cell.Empty = some st.grid) ∧
      (res = Cell.Empty → st.grid = s.grid) := by
  have hne2 : (s.withDir d).snake.body ≠ [] := by
    rw [withDir_body]
    exact hne
  rcases hres with hres | hres <;> subst hres
  · rw [applyMove_empty] at hup
    refine ⟨{ s.withDir d with snake := (s.withDir d).snake.move_to (s.nextHead d) false },
      ?_, Snake.move_to_head _ _ _ hne2, ?_, ?_, fun _ => rfl⟩
    · rcases checkCannibalism_cases
          { s.withDir d with snake := (s.withDir d).snake.move_to (s.nextHead d) false }
          (s.nextHead d) with h | h
      · exact Or.inl (hup.trans h)
      · have hh : ({ s.withDir d with snake := (s.withDir d).snake.move_to (s.nextHead d) false } : GameState).snake.head = s.nextHead d :=
          Snake.move_to_head _ _ _ hne2
        rw [hh] at h
        exact Or.inr (hup.trans h)
    · show ((s.withDir d).snake.move_to (s.nextHead d) false).body = _
      rw [Snake.move_to_body_slide _ _ hne2, withDir_body]
      simp
    · intro h
      exact absurd h (by decide)
  · obtain ⟨g2, hset⟩ :
        ∃ g2, (s.withDir d).grid.set (s.nextHead d) Cell.Empty = some g2 :=
      ⟨_, Grid.set_eq_some_of_contains s.grid (s.nextHead d) Cell.Empty hcont⟩
    have happ : applyMove (s.withDir d) (s.nextHead d) Cell.Food =
        checkCannibalism
          { grid := g2, snake := (s.withDir d).snake.move_to (s.nextHead d) true }
          (s.nextHead d) := by
      unfold applyMove
      rw [hset]
    rw [happ] at hup
    refine ⟨{ grid := g2, snake := (s.withDir d).snake.move_to (s.nextHead d) true },
      ?_, Snake.move_to_head _ _ _ hne2, ?_, fun _ => hset, ?_⟩
    · rcases checkCannibalism_cases
          { grid := g2, snake := (s.withDir d).snake.move_to (s.nextHead d) true }
          (s.nextHead d) with h | h
      · exact Or.inl (hup.trans h)
      · have hh : ({ grid := g2, snake := (s.withDir d).snake.move_to (s.nextHead d) true } : GameState).snake.head = s.nextHead d :=
          Snake.move_to_head _ _ _ hne2
        rw [hh] at h
        exact Or.inr (hup.trans h)
    · show ((s.withDir d).snake.move_to (s.nextHead d) true).body = _
      rw [Snake.move_to_body_grow, withDir_body]
      simp
    · intro h
      exact absurd h (by decide)

/-- The oob outcome (error propagation of grid.set in the Food branch) is
unreachable: the branch is only entered after a successful lookup at
next_head, which guarantees next_head is in bounds. -/
lemma update_ne_oob (s : GameState) (d : Direction) (st : GameState) :
    s.update d ≠ TickOutcome.oob st := by
  intro heq
  cases hc : s.grid.get (s.nextHead d) with
  | none =>
      rw [update_eq_collision_of_none hc] at heq
      exact absurd heq (by simp)
  | some cell =>
      by_cases hB : cell = Cell.Block
      · subst hB
        rw [update_eq_collision_of_block hc] at heq
        exact absurd heq (by simp)
      · cases hl : s.grid.get (Vec3.addDir (s.nextHead d) Direction.Down) with
        | none =>
            rw [update_eq_fell hc hB hl] at heq
            exact absurd heq (by simp)
        | some low =>
            rw [update_eq_applyMove hc hB hl] at heq
            have hnone := applyMove_oob_inv heq
            have hcont := Grid.contains_of_get_eq_some hc
            have hfalse : contains (s.nextHead d) s.grid.dimensions = false := by
              have := (Grid.set_eq_none_iff (s.withDir d).grid (s.nextHead d)
                Cell.Empty).mp hnone
              rw [withDir_grid] at this
              exact this
            rw [hcont] at hfalse
            exact absurd hfalse (by simp)

lemma update_ok_inv {s : GameState} {d : Direction} {st : GameState}
    (heq : s.update d = TickOutcome.ok st) :
    ∃ b : Bool, st.snake = (s.withDir d).snake.move_to (s.nextHead d) b := by
  cases hc : s.grid.get (s.nextHead d) with
  | none =>
      rw [update_eq_collision_of_none hc] at heq
      exact absurd heq (by simp)
  | some cell =>
      by_cases hB : cell = Cell.Block
      · subst hB
        rw [update_eq_collision_of_block hc] at heq
        exact absurd heq (by simp)
      · cases hl : s.grid.get (Vec3.addDir (s.nextHead d) Direction.Down) with
        | none =>
            rw [update_eq_fell hc hB hl] at heq
            exact absurd heq (by simp)
        | some low =>
            rw [update_eq_applyMove hc hB hl] at heq
            exact applyMove_ok_inv heq

lemma Snake.move_to_length_pos (sn : Snake) (t : Vec3) (b : Bool)
    (h : 1 ≤ sn.body.length) : 1 ≤ (sn.move_to t b).body.length := by
  cases b
  · show 1 ≤ ((t :: sn.body).dropLast).length
    rw [List.length_dropLast]
    simp only [List.length_cons]
    omega
  · show 1 ≤ (t :: sn.body).length
    simp only [List.length_cons]
    omega

/-! Arithmetic of the flat index z*my*mx + y*mx + x over Int. -/

lemma flat_index_bounds {x y z mx my mz : Int}
    (hmx : 0 < mx) (hmy : 0 < my) (hmz : 0 < mz)
    (hx0 : 0 ≤ x) (hx1 : x < mx) (hy0 : 0 ≤ y) (hy1 : y < my)
    (hz0 : 0 ≤ z) (hz1 : z < mz) :
    0 ≤ z * my * mx + y * mx + x ∧ z * my * mx + y * mx + x < mx * my * mz := by
  constructor
  · have h1 : 0 ≤ z * my * mx := mul_nonneg (mul_nonneg hz0 hmy.le) hmx.le
    have h2 : 0 ≤ y * mx := mul_nonneg hy0 hmx.le
    linarith
  · nlinarith [mul_le_mul_of_nonneg_right (show z ≤ mz - 1 by linarith)
        (mul_pos hmy hmx).le,
      mul_le_mul_of_nonneg_right (show y ≤ my - 1 by linarith) hmx.le]

lemma flat_index_roundtrip {x y z mx my : Int}
    (hmx : 0 < mx) (hmy : 0 < my)
    (hx0 : 0 ≤ x) (hx1 : x < mx) (hy0 : 0 ≤ y) (hy1 : y < my) (hz0 : 0 ≤ z) :
    (z * my * mx + y * mx + x) % mx = x ∧
      (z * my * mx + y * mx + x) / mx % my = y ∧
      (z * my * mx + y * mx + x) / (mx * my) = z := by
  have hd : z * my * mx + y * mx + x = x + (y + my * z) * mx := by ring
  have hdiv : (z * my * mx + y * mx + x) / mx = y + my * z := by
    rw [hd, Int.add_mul_ediv_right _ _ hmx.ne',
      Int.ediv_eq_zero_of_lt hx0 hx1, zero_add]
  refine ⟨?_, ?_, ?_⟩
  · rw [hd, Int.add_mul_emod_self, Int.emod_eq_of_lt hx0 hx1]
  · rw [hdiv, Int.add_mul_emod_self_left, Int.emod_eq_of_lt hy0 hy1]
  · have hd2 : z * my * mx + y * mx + x = (x + y * mx) + z * (mx * my) := by ring
    have hb0 : 0 ≤ x + y * mx := by
      have := mul_nonneg hy0 hmx.le
      linarith
    have hb1 : x + y * mx < mx * my := by
      nlinarith [mul_le_mul_of_nonneg_right (show y ≤ my - 1 by linarith) hmx.le]
    rw [hd2, Int.add_mul_ediv_right _ _ (mul_pos hmx hmy).ne',
      Int.ediv_eq_zero_of_lt hb0 hb1, zero_add]

lemma flat_index_unflatten {n mx my mz : Int}
    (hmx : 0 < mx) (hmy : 0 < my) (hmz : 0 < mz)
    (hn0 : 0 ≤ n) (hn1 : n < mx * my * mz) :
    (0 ≤ n % mx ∧ n % mx < mx) ∧
      (0 ≤ n / mx % my ∧ n / mx % my < my) ∧
      (0 ≤ n / (mx * my) ∧ n / (mx * my) < mz) ∧
      n / (mx * my) * my * mx + n / mx % my * mx + n % mx = n := by
  have hmxy : (0 : Int) < mx * my := mul_pos hmx hmy
  have hx0 := Int.emod_nonneg n hmx.ne'
  have hx1 := Int.emod_lt_of_pos n hmx
  have hy0 := Int.emod_nonneg (n / mx) hmy.ne'
  have hy1 := Int.emod_lt_of_pos (n / mx) hmy
  have hz0 : 0 ≤ n / (mx * my) := Int.ediv_nonneg hn0 hmxy.le
  have hz1 : n / (mx * my) < mz := by
    rw [Int.ediv_lt_iff_lt_mul hmxy]
    nlinarith
  have e1 : mx * (n / mx) + n % mx = n := Int.ediv_add_emod n mx
  have e2 : my * (n / mx / my) + n / mx % my = n / mx := Int.ediv_add_emod (n / mx) my
  have heq : n = (n / mx % my * mx + n % mx) + n / mx / my * (mx * my) := by
    linear_combination -e1 - mx * e2
  have hb0 : 0 ≤ n / mx % my * mx + n % mx := by
    have := mul_nonneg hy0 hmx.le
    linarith
  have hb1 : n / mx % my * mx + n % mx < mx * my := by
    nlinarith [mul_le_mul_of_nonneg_right (show n / mx % my ≤ my - 1 by linarith) hmx.le]
  have e3 : n / (mx * my) = n / mx / my := by
    conv_lhs => rw [heq]
    rw [Int.add_mul_ediv_right _ _ hmxy.ne', Int.ediv_eq_zero_of_lt hb0 hb1, zero_add]
  refine ⟨⟨hx0, hx1⟩, ⟨hy0, hy1⟩, ⟨hz0, hz1⟩, ?_⟩
  rw [e3]
  linear_combination -heq

/-! Concrete game states used as witnesses and counterexamples. -/

/-- A 2x2x2 level: Block floor at z=0, Food at (1,0,1) and (1,1,1). -/
def demoGrid : Grid :=
  { cells := [Cell.Block, Cell.Block, Cell.Block, Cell.Block,
              Cell.Empty, Cell.Food, Cell.Empty, Cell.Food],
    dimensions := (2, 2, 2) }

/-- Snake of one segment at (0,0,1) on the demo level. -/
def demoState : GameState := GameState.new (0, 0, 1) demoGrid

/-- State of the demo level after eating the Food at (1,0,1) by one East tick. -/
def demoS1 : GameState :=
  { grid := { cells := [Cell.Block, Cell.Block, Cell.Block, Cell.Block,
                        Cell.Empty, Cell.Empty, Cell.Empty, Cell.Food],
              dimensions := (2, 2, 2) },
    snake := { direction := Direction.East, body := [(1, 0, 1), (0, 0, 1)] } }

/-- State of demoS1 after a South tick eating the Food at (1,1,1). -/
def c2S2 : GameState :=
  { grid := { cells := [Cell.Block, Cell.Block, Cell.Block, Cell.Block,
                        Cell.Empty, Cell.Empty, Cell.Empty, Cell.Empty],
              dimensions := (2, 2, 2) },
    snake := { direction := Direction.South, body := [(1, 1, 1), (1, 0, 1), (0, 0, 1)] } }

/-- State reached from demoState by the tick sequence East, South, West:
both Food cells eaten, body of length 3, head at (0,1,1). -/
def c2S3 : GameState :=
  { grid := { cells := [Cell.Block, Cell.Block, Cell.Block, Cell.Block,
                        Cell.Empty, Cell.Empty, Cell.Empty, Cell.Empty],
              dimensions := (2, 2, 2) },
    snake := { direction := Direction.West, body := [(0, 1, 1), (1, 1, 1), (1, 0, 1)] } }

/-- State of c2S3 after the committed (and self-intersecting) East move. -/
def c2S4 : GameState :=
  { grid := c2S3.grid,
    snake := { direction := Direction.East, body := [(1, 1, 1), (0, 1, 1), (1, 1, 1)] } }

/-- A 1x1x3 all-Empty column with the snake at its top: no Block anywhere
below the destination, yet the tick succeeds. -/
def c3State : GameState :=
  GameState.new (0, 0, 2)
    { cells := [Cell.Empty, Cell.Empty, Cell.Empty], dimensions := (1, 1, 3) }

/-- A 1x1x2 column with Void below the snake: the immediate lookup below
the destination is absent, so the tick fails with Fell. -/
def c3FellState : GameState :=
  GameState.new (0, 0, 1)
    { cells := [Cell.Void, Cell.Empty], dimensions := (1, 1, 2) }

/-- A 2x1x3 level where moving East lands on an unsupported Empty cell
whose lower neighbour holds Food. -/
def c1State : GameState :=
  GameState.new (0, 0, 2)
    { cells := [Cell.Block, Cell.Block, Cell.Block, Cell.Food, Cell.Empty, Cell.Empty],
      dimensions := (2, 1, 3) }

/-! Claim theorems. -/

/-- C9: for every coordinate (x, y, z), the screen projection returns
exactly screen_x = (x - y) * 2 and screen_y = (x + y) - z; it is a pure
total function, hence deterministic and side-effect free. -/
theorem claim9_screen_projection (x y z : Int) :
    coord_to_screen (x, y, z) = ((x - y) * 2, (x + y) - z) := rfl

/-- C6: the unreachable-state trap in the cell-type branch of update is
never reached: whatever the state and input, one tick never returns the
trap outcome, because a destination that passed the lookup is Empty or
Food (get filters Void and the Block test rejects walls), and the gravity
resolution substitutes a cell that is again present and not Block. -/
theorem claim6_trap_unreachable (s : GameState) (d : Direction) :
    s.update d ≠ TickOutcome.trap := by
  cases hc : s.grid.get (s.nextHead d) with
  | none => rw [update_eq_collision_of_none hc]; simp
  | some cell =>
      by_cases hB : cell = Cell.Block
      · subst hB
        rw [update_eq_collision_of_block hc]
        simp
      · cases hl : s.grid.get (Vec3.addDir (s.nextHead d) Direction.Down) with
        | none => rw [update_eq_fell hc hB hl]; simp
        | some low =>
            rw [update_eq_applyMove hc hB hl]
            apply applyMove_ne_trap
            by_cases hlB : low = Cell.Block
            · rw [if_pos hlB]
              have hv : cell ≠ Cell.Void := fun h => Grid.get_ne_void _ _ (h ▸ hc)
              cases cell <;> simp_all
            · rw [if_neg hlB]
              have hv : low ≠ Cell.Void := fun h => Grid.get_ne_void _ _ (h ▸ hl)
              cases low <;> simp_all

/-- C5: update returns the Collision error exactly when the grid lookup at
next_head is absent (out of bounds or Void) or yields Block, and in that
case it carries the pre-move head and next_head and leaves the snake body
and every grid cell unchanged (only the heading has been written back). -/
theorem claim5_collision_exactly (s : GameState) (d : Direction) :
    ((s.grid.get (s.nextHead d) = none ∨ s.grid.get (s.nextHead d) = some Cell.Block) ↔
      ∃ h a st, s.update d = TickOutcome.err (GameError.SnakeCollision h a) st) ∧
    (∀ h a st, s.update d = TickOutcome.err (GameError.SnakeCollision h a) st →
      h = s.snake.head ∧ a = s.nextHead d ∧ st.grid = s.grid ∧
        st.snake.body = s.snake.body) := by
  constructor
  · constructor
    · intro hc
      rcases hc with hc | hc
      · exact ⟨s.snake.head, s.nextHead d, s.withDir d, update_eq_collision_of_none hc⟩
      · exact ⟨s.snake.head, s.nextHead d, s.withDir d, update_eq_collision_of_block hc⟩
    · rintro ⟨h, a, st, heq⟩
      exact (update_collision_inv heq).1
  · intro h a st heq
    obtain ⟨-, hh, ha, hst⟩ := update_collision_inv heq
    subst hst
    exact ⟨hh, ha, rfl, rfl⟩

/-- C5 witnessed on demoState with North held: the destination (0,-1,1)
is out of bounds, so the tick collides without mutating snake or grid. -/
theorem claim5_witness :
    ((demoState.grid.get (demoState.nextHead Direction.North) = none ∨
        demoState.grid.get (demoState.nextHead Direction.North) = some Cell.Block) ↔
      ∃ h a st, demoState.update Direction.North =
        TickOutcome.err (GameError.SnakeCollision h a) st) ∧
    (∀ h a st, demoState.update Direction.North =
        TickOutcome.err (GameError.SnakeCollision h a) st →
      h = demoState.snake.head ∧ a = demoState.nextHead Direction.North ∧
        st.grid = demoState.grid ∧ st.snake.body = demoState.snake.body) :=
  claim5_collision_exactly demoState Direction.North

/-- C2 counterexample: from demoState, the ticks East, South, West reach
c2S3 whose pre-move head is (0,1,1); the next East tick commits the move
and then fails with Cannibalism carrying head (1,1,1) — the post-move
head, not the pre-move head (0,1,1). -/
theorem claim2_counterexample :
    demoState.update Direction.East = TickOutcome.ok demoS1 ∧
    demoS1.update Direction.South = TickOutcome.ok c2S2 ∧
    c2S2.update Direction.West = TickOutcome.ok c2S3 ∧
    c2S3.snake.head = (0, 1, 1) ∧
    c2S3.update Direction.East =
      TickOutcome.err (GameError.SnakeCannibalism (1, 1, 1) (1, 1, 1)) c2S4 ∧
    ((1, 1, 1) : Vec3) ≠ ((0, 1, 1) : Vec3) := by
  refine ⟨by decide, by decide, by decide, by decide, by decide, by decide⟩

/-- C2 amended: whenever update returns a Collision or Fell error, the
error carries the pre-move head together with next_head; but a Cannibalism
error carries the post-move head of the already-mutated state, which
always equals the attempted destination next_head, not in general the
pre-move head. -/
theorem claim2_amended (s : GameState) (d : Direction) (hne : s.snake.body ≠ []) :
    (∀ h a st, s.update d = TickOutcome.err (GameError.SnakeCollision h a) st →
      h = s.snake.head ∧ a = s.nextHead d) ∧
    (∀ h a st, s.update d = TickOutcome.err (GameError.SnakeFell h a) st →
      h = s.snake.head ∧ a = s.nextHead d) ∧
    (∀ h a st, s.update d = TickOutcome.err (GameError.SnakeCannibalism h a) st →
      h = st.snake.head ∧ a = s.nextHead d ∧ h = a) := by
  refine ⟨?_, ?_, ?_⟩
  · intro h a st heq
    obtain ⟨-, hh, ha, -⟩ := update_collision_inv heq
    exact ⟨hh, ha⟩
  · intro h a st heq
    obtain ⟨-, -, hh, ha, -⟩ := update_fell_inv heq
    exact ⟨hh, ha⟩
  · intro h a st heq
    obtain ⟨hh, ha, b, hb⟩ := update_cannibalism_inv heq
    have hne2 : (s.withDir d).snake.body ≠ [] := by
      rw [withDir_body]
      exact hne
    have hhead : st.snake.head = s.nextHead d := by
      rw [hb]
      exact Snake.move_to_head _ _ _ hne2
    exact ⟨hh, ha, by rw [hh, hhead, ha]⟩

/-- C2 amended, witnessed on the cannibalism run of the counterexample. -/
theorem claim2_amended_witness :
    ((1, 1, 1) : Vec3) = c2S4.snake.head ∧
      ((1, 1, 1) : Vec3) = c2S3.nextHead Direction.East ∧
      ((1, 1, 1) : Vec3) = ((1, 1, 1) : Vec3) :=
  (claim2_amended c2S3 Direction.East (by decide)).2.2 (1, 1, 1) (1, 1, 1) c2S4 (by decide)

/-- C3 counterexample: in the all-Empty 1x1x3 column, the destination
(0,0,2) is present and not Block and no coordinate below it in its column
holds a Block, yet update succeeds (the lower neighbour (0,0,1) is present,
so the code falls through its type instead of failing with Fell). -/
theorem claim3_counterexample :
    c3State.nextHead Direction.None = (0, 0, 2) ∧
    c3State.grid.get (0, 0, 2) = some Cell.Empty ∧
    c3State.grid.get (0, 0, 1) = some Cell.Empty ∧
    c3State.grid.get (0, 0, 0) = some Cell.Empty ∧
    c3State.update Direction.None = TickOutcome.ok c3State := by
  refine ⟨by decide, by decide, by decide, by decide, by decide⟩

/-- C3 amended: for a destination that is present and not Block, update
fails with Fell exactly when the single cell immediately below the
destination is absent (out of bounds or Void); the code never inspects the
rest of the column. -/
theorem claim3_amended (s : GameState) (d : Direction) (cell : Cell)
    (hc : s.grid.get (s.nextHead d) = some cell) (hB : cell ≠ Cell.Block) :
    s.grid.get (Vec3.addDir (s.nextHead d) Direction.Down) = none ↔
      ∃ h a st, s.update d = TickOutcome.err (GameError.SnakeFell h a) st := by
  constructor
  · intro hl
    exact ⟨s.snake.head, s.nextHead d, s.withDir d, update_eq_fell hc hB hl⟩
  · rintro ⟨h, a, st, heq⟩
    exact (update_fell_inv heq).1

/-- C3 amended, witnessed on the Void-floored 1x1x2 column. -/
theorem claim3_amended_witness :
    c3FellState.grid.get (Vec3.addDir (c3FellState.nextHead Direction.None) Direction.Down) =
        none ↔
      ∃ h a st, c3FellState.update Direction.None =
        TickOutcome.err (GameError.SnakeFell h a) st :=
  claim3_amended c3FellState Direction.None Cell.Empty (by decide) (by decide)

/-- C1: when the destination next_head is present and not Block, and the
cell one level below it is present and not Block, the tick resolves the
move from the type of that lower cell (growing and clearing the grid on
Food, sliding on Empty) while still writing the new head at next_head
itself, never at the lower cell. -/
theorem claim1_gravity_type_coupling (s : GameState) (d : Direction) (cell low : Cell)
    (hne : s.snake.body ≠ [])
    (hc : s.grid.get (s.nextHead d) = some cell) (hB : cell ≠ Cell.Block)
    (hl : s.grid.get (Vec3.addDir (s.nextHead d) Direction.Down) = some low)
    (hlB : low ≠ Cell.Block) :
    ∃ st : GameState,
      (s.update d = TickOutcome.ok st ∨
        s.update d = TickOutcome.err
          (GameError.SnakeCannibalism (s.nextHead d) (s.nextHead d)) st) ∧
      st.snake.head = s.nextHead d ∧
      st.snake.body =
        s.nextHead d :: (if low = Cell.Food then s.snake.body else s.snake.body.dropLast) ∧
      (low = Cell.Food → s.grid.set (s.nextHead d) Cell.Empty = some st.grid) ∧
      (low = Cell.Empty → st.grid = s.grid) := by
  have hup := update_eq_applyMove hc hB hl
  rw [if_neg hlB] at hup
  have hv : low ≠ Cell.Void := fun h => Grid.get_ne_void _ _ (h ▸ hl)
  have hres : low = Cell.Empty ∨ low = Cell.Food := by
    cases low <;> simp_all
  exact update_resolved hne hup (Grid.contains_of_get_eq_some hc) hres

/-- C1 witnessed on c1State: moving East onto the unsupported Empty cell
(1,0,2) whose lower neighbour holds Food grows the snake, with the head
written at (1,0,2). -/
theorem claim1_witness :
    ∃ st : GameState,
      (c1State.update Direction.East = TickOutcome.ok st ∨
        c1State.update Direction.East = TickOutcome.err
          (GameError.SnakeCannibalism (c1State.nextHead Direction.East)
            (c1State.nextHead Direction.East)) st) ∧
      st.snake.head = c1State.nextHead Direction.East ∧
      st.snake.body = c1State.nextHead Direction.East ::
        (if Cell.Food = Cell.Food then c1State.snake.body
          else c1State.snake.body.dropLast) ∧
      (Cell.Food = Cell.Food →
        c1State.grid.set (c1State.nextHead Direction.East) Cell.Empty = some st.grid) ∧
      (Cell.Food = Cell.Empty → st.grid = c1State.grid) :=
  claim1_gravity_type_coupling c1State Direction.East Cell.Empty Cell.Food
    (by decide) (by decide) (by decide) (by decide) (by decide)

/-- C4: on a tick whose resolved cell type is Food, the body length grows
by exactly 1 and the grid cell at the destination next_head becomes Empty;
on a tick whose resolved cell type is Empty, the body length is unchanged
and the vacated tail entry is removed from the body. -/
theorem claim4_growth_law (s : GameState) (d : Direction) (cell low : Cell)
    (hne : s.snake.body ≠ [])
    (hc : s.grid.get (s.nextHead d) = some cell) (hB : cell ≠ Cell.Block)
    (hl : s.grid.get (Vec3.addDir (s.nextHead d) Direction.Down) = some low) :
    ∃ st : GameState,
      (s.update d = TickOutcome.ok st ∨ ∃ e, s.update d = TickOutcome.err e st) ∧
      ((if low = Cell.Block then cell else low) = Cell.Food →
        st.snake.body.length = s.snake.body.length + 1 ∧
        st.grid.get (s.nextHead d) = some Cell.Empty) ∧
      ((if low = Cell.Block then cell else low) = Cell.Empty →
        st.snake.body.length = s.snake.body.length ∧
        st.snake.body = s.nextHead d :: s.snake.body.dropLast) := by
  have hup := update_eq_applyMove hc hB hl
  have hvc : cell ≠ Cell.Void := fun h => Grid.get_ne_void _ _ (h ▸ hc)
  have hvl : low ≠ Cell.Void := fun h => Grid.get_ne_void _ _ (h ▸ hl)
  have hres : (if low = Cell.Block then cell else low) = Cell.Empty ∨
      (if low = Cell.Block then cell else low) = Cell.Food := by
    by_cases hlB : low = Cell.Block
    · rw [if_pos hlB]
      cases cell <;> simp_all
    · rw [if_neg hlB]
      cases low <;> simp_all
  obtain ⟨st, hout, hhead, hbody, hfood, hempty⟩ :=
    update_resolved hne hup (Grid.contains_of_get_eq_some hc) hres
  refine ⟨st, ?_, ?_, ?_⟩
  · rcases hout with h | h
    · exact Or.inl h
    · exact Or.inr ⟨_, h⟩
  · intro hF
    rw [hF] at hbody
    simp only [if_pos rfl] at hbody
    refine ⟨by rw [hbody]; rfl, ?_⟩
    exact Grid.get_set_self hc (hfood hF) (by decide)
  · intro hE
    rw [hE] at hbody
    simp only [reduceCtorEq, if_false] at hbody
    have hpos : 0 < s.snake.body.length := List.length_pos.mpr hne
    refine ⟨?_, hbody⟩
    rw [hbody]
    simp [List.length_dropLast]
    omega

/-- C4 witnessed on demoState: the East tick eats the Food at (1,0,1),
growing the body from 1 to 2 and clearing the cell. -/
theorem claim4_witness :
    ∃ st : GameState,
      (demoState.update Direction.East = TickOutcome.ok st ∨
        ∃ e, demoState.update Direction.East = TickOutcome.err e st) ∧
      ((if Cell.Block = Cell.Block then Cell.Food else Cell.Block) = Cell.Food →
        st.snake.body.length = demoState.snake.body.length + 1 ∧
        st.grid.get (demoState.nextHead Direction.East) = some Cell.Empty) ∧
      ((if Cell.Block = Cell.Block then Cell.Food else Cell.Block) = Cell.Empty →
        st.snake.body.length = demoState.snake.body.length ∧
        st.snake.body =
          demoState.nextHead Direction.East :: demoState.snake.body.dropLast) :=
  claim4_growth_law demoState Direction.East Cell.Food Cell.Block
    (by decide) (by decide) (by decide) (by decide)

/-- C7: the snake body is always non-empty: Snake.new yields one segment,
move_to preserves a positive body length, head agrees with the actual
front whenever the body is non-empty, and every tick outcome (success,
any error, or the dead set-error path) preserves a positive body length. -/
theorem claim7_body_nonempty :
    (∀ pos : Vec3, (Snake.new pos).body.length = 1) ∧
    (∀ (sn : Snake) (t : Vec3) (b : Bool),
      1 ≤ sn.body.length → 1 ≤ (sn.move_to t b).body.length) ∧
    (∀ sn : Snake, 1 ≤ sn.body.length → sn.body.head? = some sn.head) ∧
    (∀ (s : GameState) (d : Direction) (st : GameState),
      1 ≤ s.snake.body.length →
      (s.update d = TickOutcome.ok st ∨ (∃ e, s.update d = TickOutcome.err e st) ∨
        s.update d = TickOutcome.oob st) →
      1 ≤ st.snake.body.length) := by
  refine ⟨fun pos => rfl, Snake.move_to_length_pos, ?_, ?_⟩
  · intro sn h
    cases hb : sn.body with
    | nil => rw [hb] at h; exact absurd h (by simp)
    | cons a l => simp [Snake.head, hb]
  · intro s d st h hout
    have hbase : 1 ≤ (s.withDir d).snake.body.length := by
      rw [withDir_body]
      exact h
    rcases hout with hok | ⟨e, herr⟩ | hoob
    · obtain ⟨b, hb⟩ := update_ok_inv hok
      rw [hb]
      exact Snake.move_to_length_pos _ _ _ hbase
    · cases e with
      | SnakeCollision eh ea =>
          obtain ⟨-, -, -, hst⟩ := update_collision_inv herr
          subst hst
          exact hbase
      | SnakeFell eh ea =>
          obtain ⟨-, -, -, -, hst⟩ := update_fell_inv herr
          subst hst
          exact hbase
      | SnakeCannibalism eh ea =>
          obtain ⟨-, -, b, hb⟩ := update_cannibalism_inv herr
          rw [hb]
          exact Snake.move_to_length_pos _ _ _ hbase
    · exact absurd hoob (update_ne_oob s d st)

/-- C7 witnessed on the East tick of demoState. -/
theorem claim7_witness : 1 ≤ demoS1.snake.body.length :=
  claim7_body_nonempty.2.2.2 demoState Direction.East demoS1 (by decide)
    (Or.inl (by decide))

/-- C10: whenever a grid lookup succeeds at a coordinate, a set at that
same coordinate also succeeds, so the error propagation of grid.set in the
Food branch of update is dead code: no tick ever surfaces that error. -/
theorem claim10_food_set_never_fails :
    (∀ (g : Grid) (c : Vec3) (v cell : Cell),
      g.get c = some v → (g.set c cell).isSome = true) ∧
    (∀ (s : GameState) (d : Direction) (st : GameState),
      s.update d ≠ TickOutcome.oob st) := by
  constructor
  · intro g c v cell h
    rw [Grid.set_eq_some_of_contains g c cell (Grid.contains_of_get_eq_some h)]
    rfl
  · exact update_ne_oob

/-- C10 witnessed on the demo grid at the Food coordinate (1,0,1). -/
theorem claim10_witness : (demoGrid.set (1, 0, 1) Cell.Empty).isSome = true :=
  claim10_food_set_never_fails.1 demoGrid (1, 0, 1) Cell.Food Cell.Empty (by decide)

/-- C8: for positive dimensions, the flat index z*my*mx + y*mx + x is a
bijection between in-bounds coordinates and the interval [0, mx*my*mz):
coord_to_index lands in the interval and index_to_coord inverts it, and
conversely every index in the interval is sent to an in-bounds coordinate
that coord_to_index maps back to the same index. -/
theorem claim8_index_bijection (g : Grid) (mx my mz : Int)
    (hdim : g.dimensions = (mx, my, mz))
    (hmx : 0 < mx) (hmy : 0 < my) (hmz : 0 < mz) :
    (∀ c : Vec3, contains c g.dimensions = true →
      0 ≤ g.coord_to_index c ∧ g.coord_to_index c < mx * my * mz ∧
        g.index_to_coord (g.coord_to_index c).toNat = c) ∧
    (∀ i : Nat, (i : Int) < mx * my * mz →
      contains (g.index_to_coord i) g.dimensions = true ∧
        g.coord_to_index (g.index_to_coord i) = (i : Int)) := by
  obtain ⟨cells, dims⟩ := g
  replace hdim : dims = (mx, my, mz) := hdim
  subst hdim
  constructor
  · rintro ⟨x, y, z⟩ hc
    replace hc : contains (x, y, z) (mx, my, mz) = true := hc
    rw [contains_iff] at hc
    obtain ⟨hx0, hx1, hy0, hy1, hz0, hz1⟩ := hc
    have hidx : (Grid.mk cells (mx, my, mz)).coord_to_index (x, y, z) =
        z * my * mx + y * mx + x := rfl
    obtain ⟨hn0, hn1⟩ := flat_index_bounds hmx hmy hmz hx0 hx1 hy0 hy1 hz0 hz1
    obtain ⟨hr1, hr2, hr3⟩ := flat_index_roundtrip hmx hmy hx0 hx1 hy0 hy1 hz0
    refine ⟨by rw [hidx]; exact hn0, by rw [hidx]; exact hn1, ?_⟩
    rw [hidx]
    show (((z * my * mx + y * mx + x).toNat : Int) % mx,
        ((z * my * mx + y * mx + x).toNat : Int) / mx % my,
        ((z * my * mx + y * mx + x).toNat : Int) / (mx * my)) = ((x, y, z) : Vec3)
    rw [Int.toNat_of_nonneg hn0, hr1, hr2, hr3]
  · intro i hi
    have hn0 : (0 : Int) ≤ (i : Int) := Int.natCast_nonneg i
    obtain ⟨⟨ha, hb⟩, ⟨hc2, hd⟩, ⟨he, hf⟩, hrec⟩ :=
      flat_index_unflatten hmx hmy hmz hn0 hi
    constructor
    · show contains ((i : Int) % mx, (i : Int) / mx % my, (i : Int) / (mx * my))
        (mx, my, mz) = true
      rw [contains_iff]
      exact ⟨ha, hb, hc2, hd, he, hf⟩
    · show (i : Int) / (mx * my) * my * mx + (i : Int) / mx % my * mx + (i : Int) % mx =
        (i : Int)
      exact hrec

/-- C8 witnessed on a 2x3x4 grid. -/
theorem claim8_witness :
    (∀ c : Vec3, contains c (Grid.mk [] (2, 3, 4)).dimensions = true →
      0 ≤ (Grid.mk [] (2, 3, 4)).coord_to_index c ∧
        (Grid.mk [] (2, 3, 4)).coord_to_index c < 2 * 3 * 4 ∧
        (Grid.mk [] (2, 3, 4)).index_to_coord
          ((Grid.mk [] (2, 3, 4)).coord_to_index c).toNat = c) ∧
    (∀ i : Nat, (i : Int) < 2 * 3 * 4 →
      contains ((Grid.mk [] (2, 3, 4)).index_to_coord i)
          (Grid.mk [] (2, 3, 4)).dimensions = true ∧
        (Grid.mk [] (2, 3, 4)).coord_to_index
          ((Grid.mk [] (2, 3, 4)).index_to_coord i) = (i : Int)) :=
  claim8_index_bijection (Grid.mk [] (2, 3, 4)) 2 3 4 rfl
    (by decide) (by decide) (by decide)

end Jormungandr
